import Mathlib

/-!
Verification development for the laview-nvr-video-downloader NVR retrieval
client (`src/laview_dl/`).  The Python core is shallowly embedded: pure
helpers become Lean functions, network interactions are scripted by explicit
event values, Python exceptions become `Except`, and machine side effects
(logging, sleeping, rebooting) are recorded as traces of actions.
-/

namespace LaviewDl

/-! ## Constants (src/laview_dl/utils.py, src/laview_dl/camerasdk.py) -/

def DEVICE_ERROR_CODE : Nat := 500

def MAX_VIDEOS_NUMBER_IN_ONE_REQUEST : Nat := 50

def DELAY_AFTER_TIMEOUT_SECONDS : Nat := 5

def DELAY_BETWEEN_DOWNLOADING_FILES_SECONDS : Nat := 1

/-! ## Python runtime model -/

/-- Python exceptions that the embedded code can raise. -/
inductive PyErr where
  | attributeError
  | parseError
  | netError
  deriving Repr, DecidableEq

/-- Outcome of one HTTP download attempt against the device, as seen by
`CameraSdk.download_file`: either a response with its HTTP status code, or a
`requests` exception (`Timeout` / `ConnectionError`). -/
inductive NetEvent where
  | response (status_code : Nat)
  | timeout
  | connectionError
  deriving Repr, DecidableEq

/-- `requests.Response.ok` (also the truthiness of a `Response`):
status code below 400. -/
def response_ok (status_code : Nat) : Bool := status_code < 400

/-- Python attribute access `answer.status_code` when `answer` is a `bool`:
`bool` has no attribute `status_code`, so it raises `AttributeError`. -/
def bool_getattr_status_code (_answer : Bool) : Except PyErr Nat :=
  .error .attributeError

/-! ## Metadata stamping (utils.set_video_exif_metadata) -/

/-- Outcome of invoking the external `exiftool` process via `subprocess.run`
with `check=True` and a timeout. -/
inductive ExifToolOutcome where
  | success
  | calledProcessError
  | fileNotFound
  | timeoutExpired
  deriving Repr, DecidableEq

/-- Environment seen by `set_video_exif_metadata`: whether the freshly
written video file exists, and how the `exiftool` invocation turns out. -/
structure ExifEnv where
  file_exists : Bool
  tool : ExifToolOutcome
  deriving Repr, DecidableEq

/-- utils.set_video_exif_metadata: returns `False` when the file is missing;
runs `exiftool` and returns `True` on success; each failure mode of the tool
(`CalledProcessError`, `FileNotFoundError`, `TimeoutExpired`) is caught and
turned into `False`.  The function never lets an exception escape. -/
def set_video_exif_metadata (e : ExifEnv) : Bool :=
  if !e.file_exists then false
  else
    match e.tool with
    | .success => true
    | .calledProcessError => false
    | .fileNotFound => false
    | .timeoutExpired => false

/-! ## Download with retry (camerasdk.CameraSdk.download_file,
utils.download_file_with_retry, utils.download_tracks) -/

/-- Observable side effects of the per-track download loop. -/
inductive DlAction where
  | stampExif
  | reboot
  | waitRebooted
  | sleepAfterTimeout
  deriving Repr, DecidableEq

namespace CameraSdk

/-- CameraSdk.download_file: issues the streamed GET; on a truthy, `ok`
response it streams the body to the file and returns `True`; on a non-ok
response it returns `False`; a `requests` `Timeout` or `ConnectionError` is
caught and also yields `False`.  The return type is `bool`. -/
def download_file : NetEvent → Bool
  | .response status_code => response_ok status_code
  | .timeout => false
  | .connectionError => false

end CameraSdk

/-- utils.download_file_with_retry: runs one download attempt.  On a truthy
result it stamps metadata (result discarded) and returns `True`.  Otherwise
it evaluates `answer.status_code` — but `answer` is the `bool` returned by
`download_file`, so this attribute access raises `AttributeError`; the
reboot branch guarded by `answer.status_code == DEVICE_ERROR_CODE` is
unreachable.  The result pairs the Python outcome with the trace of actions
actually performed. -/
def download_file_with_retry (ev : NetEvent) (e : ExifEnv) :
    Except PyErr Bool × List DlAction :=
  let answer := CameraSdk.download_file ev
  if answer then
    let _unused := set_video_exif_metadata e
    (.ok true, [.stampExif])
  else
    match bool_getattr_status_code answer with
    | .error err => (.error err, [])
    | .ok sc =>
      if sc = DEVICE_ERROR_CODE then (.ok false, [.reboot, .waitRebooted])
      else (.ok false, [])

/-- The `while True` loop of utils.download_tracks for a single track,
scripted by the list of outcomes of successive attempts: loop until
`download_file_with_retry` returns truthy, sleeping
`DELAY_AFTER_TIMEOUT_SECONDS` between attempts; an exception raised by the
body propagates out of the loop.  An exhausted script ends the model with
the loop still unfinished. -/
def download_track_loop : List NetEvent → ExifEnv → Except PyErr Bool × List DlAction
  | [], _ => (.ok false, [])
  | ev :: rest, e =>
    match download_file_with_retry ev e with
    | (.error err, acts) => (.error err, acts)
    | (.ok true, acts) => (.ok true, acts)
    | (.ok false, acts) =>
      let next := download_track_loop rest e
      (next.1, acts ++ .sleepAfterTimeout :: next.2)

/-! ## Paginated search (camerasdk.get_all_tracks) -/

/-- Modelled from the spec: `Track` (src/laview_dl/track.py is absent from
src/).  A Track wraps one recording segment; the pagination loop only reads
the end timestamp of its time interval (`track.get_time_interval().end_time`),
modelled here as an instant in seconds. -/
structure Track where
  endTime : Int
  deriving Repr, DecidableEq

/-- One answer of the device to a search page request, after
`create_tracks_from_info` decoding: a truthy, successful response carrying
its decoded track list (empty when the match list is absent), or a falsy
non-success response. -/
inductive PageAnswer where
  | ok (tracks : List Track)
  | fail
  deriving Repr, DecidableEq

/-- Result of a whole search: the accumulated tracks and the start instants
of the page requests that were issued, in order. -/
structure SearchResult where
  tracks : List Track
  requestStarts : List Int
  deriving Repr, DecidableEq

/-- The `while True` loop of camerasdk.get_all_tracks, scripted by the list
of answers to successive page requests.  Each iteration issues one request
at the current window start and consumes the next answer.  A truthy answer
appends its tracks; fewer than `MAX_VIDEOS_NUMBER_IN_ONE_REQUEST` new
tracks breaks the loop; otherwise `utc_time_interval.start_time` is set to
`tracks[-1].get_time_interval().end_time` and the loop repeats.  A falsy
answer clears the accumulated tracks and breaks.  An exhausted script ends
the model with what was accumulated. -/
def get_all_tracks_loop :
    List PageAnswer → Int → List Track → List Int → SearchResult
  | [], _, acc, reqs => ⟨acc, reqs⟩
  | .fail :: _, start, _, reqs => ⟨[], reqs ++ [start]⟩
  | .ok page :: rest, start, acc, reqs =>
    let tracks := acc ++ page
    if page.length < MAX_VIDEOS_NUMBER_IN_ONE_REQUEST then
      ⟨tracks, reqs ++ [start]⟩
    else
      match tracks.getLast? with
      | none => ⟨tracks, reqs ++ [start]⟩
      | some last =>
        get_all_tracks_loop rest last.endTime tracks (reqs ++ [start])

/-- camerasdk.get_all_tracks, starting from an empty accumulator with the
search window's initial start instant. -/
def get_all_tracks (answers : List PageAnswer) (startTime : Int) : SearchResult :=
  get_all_tracks_loop answers startTime [] []

/-! ## Authentication negotiation (camerasdk.CameraSdk.get_auth_type) -/

/-- Modelled from the spec: `AuthType` (src/laview_dl/authtype.py is absent
from src/): the selected scheme, Basic, Digest, or Unauthorized. -/
inductive AuthType where
  | BASIC
  | DIGEST
  | UNAUTHORISED
  deriving Repr, DecidableEq

/-- The two credential schemes a probe can be issued with. -/
inductive AuthScheme where
  | basic
  | digest
  deriving Repr, DecidableEq

/-- Outcome of one probe GET of the device time endpoint
(`__make_get_request`): either an HTTP response (with its `ok` flag), or a
`requests` network exception (timeout, connection refused), which
`__make_get_request` does not catch. -/
inductive ProbeOutcome where
  | resp (ok : Bool)
  | netRaise
  deriving Repr, DecidableEq

/-- CameraSdk.get_auth_type: probe the time endpoint with Basic credentials;
a successful (`ok`) response selects Basic; otherwise probe with Digest;
otherwise Unauthorized.  `__make_get_request` has no exception handler, so a
network-level exception in either probe propagates out of the function.
The result pairs the Python outcome with the ordered list of probes
attempted. -/
def get_auth_type (server : AuthScheme → ProbeOutcome) :
    Except PyErr AuthType × List AuthScheme :=
  match server .basic with
  | .netRaise => (.error .netError, [.basic])
  | .resp ok1 =>
    if ok1 then (.ok .BASIC, [.basic])
    else
      match server .digest with
      | .netRaise => (.error .netError, [.basic, .digest])
      | .resp ok2 =>
        if ok2 then (.ok .DIGEST, [.basic, .digest])
        else (.ok .UNAUTHORISED, [.basic, .digest])

/-- A server that answers every probe with an HTTP response: `b` tells
whether the Basic probe is accepted, `d` the Digest probe. -/
def respondingServer (b d : Bool) : AuthScheme → ProbeOutcome
  | .basic => .resp b
  | .digest => .resp d

/-- A server whose device port never answers: every probe raises a network
exception. -/
def unreachableServer : AuthScheme → ProbeOutcome
  | _ => .netRaise

/-! ## Timezone parsing (camerasdk.CameraSdk.parse_timezone) -/

/-- `int` on a run of decimal digits (leading zeroes allowed). -/
def digitsToNat (ds : List Char) : Nat :=
  ds.foldl (fun a c => 10 * a + (c.toNat - 48)) 0

/-- `str.replace(name, "")` for a three-character zone name: scan left to
right, remove each non-overlapping occurrence and continue scanning after
it.  All zone names stripped by `parse_timezone` have three characters. -/
def removeName3 (a b c : Char) : List Char → List Char
  | x :: y :: z :: rest =>
    if x = a ∧ y = b ∧ z = c then removeName3 a b c rest
    else x :: removeName3 a b c (y :: z :: rest)
  | other => other

/-- The zone-name stripping loop: successive `replace` calls for
"CST", "EST", "PST", "MST", "GMT", "UTC", in this order. -/
def stripZoneNames (cs : List Char) : List Char :=
  removeName3 'U' 'T' 'C'
    (removeName3 'G' 'M' 'T'
      (removeName3 'M' 'S' 'T'
        (removeName3 'P' 'S' 'T'
          (removeName3 'E' 'S' 'T'
            (removeName3 'C' 'S' 'T' cs)))))

/-- Match `\d+:\d+:\d+` at the head of the input: three runs of one or
more digits separated by colons (each `\d+` is greedy; since a digit can
never match `:`, the maximal run is the only viable one). -/
def matchHMS (cs : List Char) : Option (Nat × Nat × Nat) :=
  match cs.span Char.isDigit with
  | ([], _) => none
  | (d1, r1) =>
    match r1 with
    | ':' :: r2 =>
      (match r2.span Char.isDigit with
       | ([], _) => none
       | (d2, r3) =>
        match r3 with
        | ':' :: r4 =>
          (match r4.span Char.isDigit with
           | ([], _) => none
           | (d3, _) =>
            some (digitsToNat d1, digitsToNat d2, digitsToNat d3))
        | _ => none)
    | _ => none

/-- Match the base-offset pattern `([+-]\d+):(\d+):(\d+)` at the head of
the input; `int` applied to the first (signed) group yields the hours. -/
def matchSignedHMS : List Char → Option (Int × Nat × Nat)
  | [] => none
  | c :: rest =>
    if c = '+' then
      match matchHMS rest with
      | some (h, m, s) => some ((h : Int), m, s)
      | none => none
    else if c = '-' then
      match matchHMS rest with
      | some (h, m, s) => some (-(h : Int), m, s)
      | none => none
    else none

/-- `re.search` of the base-offset pattern: leftmost position where the
whole pattern matches. -/
def searchSignedHMS : List Char → Option (Int × Nat × Nat)
  | [] => none
  | c :: rest =>
    match matchSignedHMS (c :: rest) with
    | some r => some r
    | none => searchSignedHMS rest

/-- Match the DST pattern `DST(\d+):(\d+):(\d+)` at the head of the
input. -/
def matchDstHMS : List Char → Option (Nat × Nat × Nat)
  | 'D' :: 'S' :: 'T' :: rest => matchHMS rest
  | _ => none

/-- `re.search` of the DST pattern. -/
def searchDstHMS : List Char → Option (Nat × Nat × Nat)
  | [] => none
  | c :: rest =>
    match matchDstHMS (c :: rest) with
    | some r => some r
    | none => searchDstHMS rest

/-- `-timedelta(hours=h, minutes=m, seconds=s)`, in seconds: the parsed
offset is negated because the endpoint reports the offset to UTC in the
opposite sign convention. -/
def combined_offset (hours minutes seconds : Int) : Int :=
  -(hours * 3600 + minutes * 60 + seconds)

/-- CameraSdk.parse_timezone on the character list of the timezone field:
strip zone names, search the base signed offset (no match yields a zero
offset), optionally add the DST offset, negate the combination.  With a
plain string input none of the caught exceptions (`ValueError`,
`IndexError`, `AttributeError`) can occur, so the function is total. -/
def parse_timezone_chars (cs : List Char) : Int :=
  let t := stripZoneNames cs
  match searchSignedHMS t with
  | none => 0
  | some (h, m, s) =>
    match searchDstHMS t with
    | some (dh, dm, ds) =>
      combined_offset (h + (dh : Int)) ((m : Int) + dm) ((s : Int) + ds)
    | none => combined_offset h m s

/-- CameraSdk.parse_timezone, in seconds of the resulting `timedelta`. -/
def parse_timezone (s : String) : Int := parse_timezone_chars s.data

/-! ## Error message extraction (camerasdk.CameraSdk.get_error_message_from) -/

/-- Match the pattern ` xmlns="[^"]+"` at the head of the input; on success
return the remainder after the closing quote. -/
def matchXmlns (cs : List Char) : Option (List Char) :=
  match cs with
  | ' ' :: 'x' :: 'm' :: 'l' :: 'n' :: 's' :: '=' :: '"' :: rest =>
    (match rest.span (· != '"') with
     | ([], _) => none
     | (_, r) =>
       match r with
       | '"' :: r2 => some r2
       | _ => none)
  | _ => none

/-- `re.sub(' xmlns="[^"]+"', "", text)`: remove every occurrence, scanning
left to right and continuing after each removal.  The fuel argument only
bounds the recursion; each step consumes at least one character of the
remaining input, so fuel equal to the input length never runs out. -/
def clearXmlnsFuel : Nat → List Char → List Char
  | 0, cs => cs
  | fuel + 1, cs =>
    match cs with
    | [] => []
    | c :: rest =>
      match matchXmlns (c :: rest) with
      | some r => clearXmlnsFuel fuel r
      | none => c :: clearXmlnsFuel fuel rest

/-- CameraSdk.__clear_xml_from_namespaces. -/
def clear_xml_from_namespaces (s : String) : String :=
  ⟨clearXmlnsFuel s.data.length s.data⟩

/-- Model of `xml.etree.ElementTree` as used by `get_error_message_from`:
`fromstring` on the namespace-stripped body either raises `ParseError`
(the text is not well-formed XML) or yields a root element whose `find`
returns the text of the direct children `statusString` and `subStatusCode`
when they are present. -/
inductive BodyXml where
  | malformed
  | doc (statusString subStatusCode : Option String)
  deriving Repr, DecidableEq

/-- A `requests` HTTP response as consumed by `get_error_message_from`:
HTTP status code, reason phrase, decoded body text, and the
`ElementTree.fromstring` outcome on the namespace-stripped body. -/
structure HttpAnswer where
  status_code : Nat
  reason : String
  text : String
  parsed : BodyXml

/-- CameraSdk.get_error_message_from: strip the default XML namespaces from
the body and parse it (`ElementTree.fromstring` — there is no handler, so a
`ParseError` on a non-well-formed body propagates).  When both
`statusString` and `subStatusCode` are found the message is
`"Error {status_code} {reason}: {status} - {substatus}"`; otherwise the
namespace-stripped body text is returned. -/
def get_error_message_from (a : HttpAnswer) : Except PyErr String :=
  let answer_text := clear_xml_from_namespaces a.text
  match a.parsed with
  | .malformed => .error .parseError
  | .doc st sub =>
    match st, sub with
    | some status, some substatus =>
      .ok ("Error " ++ toString a.status_code ++ " " ++ a.reason ++ ": " ++
        status ++ " - " ++ substatus)
    | some _, none => .ok answer_text
    | none, some _ => .ok answer_text
    | none, none => .ok answer_text

end LaviewDl

namespace LaviewDl

/-! ## Claim theorems: downloader -/

/-- C1: the claim says that when the device answers the download request
with `DEVICE_ERROR_CODE` (500), the downloader reboots the device, waits
until it is reachable again, and retries.  The code cannot do this: on any
falsy download result `download_file_with_retry` evaluates `.status_code`
on the `bool` returned by `CameraSdk.download_file`, raising
`AttributeError` with an empty action trace — no reboot, no wait, no
retry. -/
theorem download_internal_error_raises_instead_of_reboot :
    DEVICE_ERROR_CODE = 500 ∧
    CameraSdk.download_file (.response 500) = false ∧
    download_file_with_retry (.response 500) ⟨true, .success⟩ =
      (Except.error PyErr.attributeError, []) := by
  refine ⟨rfl, rfl, ?_⟩
  rfl

/-- C2: the claim says that a download failing with a timeout or connection
refusal is retried after `DELAY_AFTER_TIMEOUT_SECONDS` without rebooting.
In the code the failing attempt makes `download_file_with_retry` raise
`AttributeError` (attribute access on a `bool`), so the loop performs no
sleep and no second attempt: both scripted events after the failure are
never consumed. -/
theorem download_transient_failure_raises_instead_of_retry :
    download_track_loop [.timeout, .response 200] ⟨true, .success⟩ =
      (Except.error PyErr.attributeError, []) ∧
    download_track_loop [.connectionError, .response 200] ⟨true, .success⟩ =
      (Except.error PyErr.attributeError, []) := by
  exact ⟨rfl, rfl⟩

/-- C9: a failure of the best-effort metadata stamping step is swallowed:
`set_video_exif_metadata` returns `false` (it is a total function, raising
nothing) whenever the tool invocation does not succeed or the file is
missing, and `download_file_with_retry` reports a successful download as
`True` whatever the stamping environment is. -/
theorem exif_failure_swallowed (e : ExifEnv) (ev : NetEvent) :
    (e.tool ≠ .success → set_video_exif_metadata e = false) ∧
    (e.file_exists = false → set_video_exif_metadata e = false) ∧
    (CameraSdk.download_file ev = true →
      download_file_with_retry ev e = (Except.ok true, [.stampExif])) := by
  refine ⟨?_, ?_, ?_⟩
  · intro h
    cases e with
    | mk fe tool =>
      cases tool with
      | success => exact absurd rfl h
      | calledProcessError => cases fe <;> rfl
      | fileNotFound => cases fe <;> rfl
      | timeoutExpired => cases fe <;> rfl
  · intro h
    cases e with
    | mk fe tool => cases h; cases tool <;> rfl
  · intro h
    unfold download_file_with_retry
    rw [h]
    rfl

/-! ## Claim theorems: timezone parsing -/

/-- C7: `parse_timezone` strips known zone-name prefixes, extracts the base
signed H:MM:SS offset, adds the DST H:MM:SS offset when its pattern
matches, and negates the combination: "CST+5:00:00" yields −5 hours
(−18000 s) and the full combined grammar adds the DST hour (−21600 s).  A
string with no matching numeric offset yields a zero offset; the function
is total, so no exception escapes. -/
theorem timezone_parse_spec (s : String)
    (hs : searchSignedHMS (stripZoneNames s.data) = none) :
    parse_timezone "CST+5:00:00" = -18000 ∧
    parse_timezone
      "CST+5:00:00DST01:00:00,M3.2.1/02:00:00,M11.1.1/00:00:00" = -21600 ∧
    parse_timezone s = 0 := by
  refine ⟨rfl, rfl, ?_⟩
  unfold parse_timezone parse_timezone_chars
  simp only [hs]

/-- Witness for C7 at the malformed string "garbage". -/
theorem timezone_parse_spec_witness :
    parse_timezone "CST+5:00:00" = -18000 ∧
    parse_timezone
      "CST+5:00:00DST01:00:00,M3.2.1/02:00:00,M11.1.1/00:00:00" = -21600 ∧
    parse_timezone "garbage" = 0 :=
  timezone_parse_spec "garbage" rfl

/-- C10: the parsed sign applies only to the hours group: whenever the base
pattern matches groups `(h, m, s)` and no DST pattern matches, the result
is `-(h*3600 + m*60 + s)` with the minutes and seconds contributing with
positive sign into the negated sum whatever the sign of `h`.  In
particular "-5:30:00" parses to the negation of
`timedelta(hours=-5, minutes=30)`, i.e. +4h30m = 16200 s, and not the
+5h30m = 19800 s that negating a westward five-and-a-half-hour offset
would give. -/
theorem timezone_sign_applies_to_hours_only (t : String) (h : Int) (m s : Nat)
    (hb : searchSignedHMS (stripZoneNames t.data) = some (h, m, s))
    (hd : searchDstHMS (stripZoneNames t.data) = none) :
    parse_timezone t = -(h * 3600 + (m : Int) * 60 + (s : Int)) ∧
    parse_timezone "-5:30:00" = 16200 ∧
    (-(((-5 : Int)) * 3600 + (30 : Int) * 60 + 0) = 16200) ∧
    parse_timezone "-5:30:00" ≠ 19800 := by
  refine ⟨?_, rfl, rfl, by decide⟩
  unfold parse_timezone parse_timezone_chars
  simp only [hb, hd]
  rfl

/-- Witness for C10 at the string "-5:30:00". -/
theorem timezone_sign_applies_to_hours_only_witness :
    parse_timezone "-5:30:00" =
      -((-5 : Int) * 3600 + ((30 : Nat) : Int) * 60 + ((0 : Nat) : Int)) ∧
    parse_timezone "-5:30:00" = 16200 ∧
    (-(((-5 : Int)) * 3600 + (30 : Int) * 60 + 0) = 16200) ∧
    parse_timezone "-5:30:00" ≠ 19800 :=
  timezone_sign_applies_to_hours_only "-5:30:00" (-5) 30 0 rfl rfl

/-! ## Claim theorems: error message extraction -/

/-- C8 counterexample: the claim's fallback branch does not hold.  A body
that is not well-formed XML makes `get_error_message_from` raise a
`ParseError` (`ElementTree.fromstring` has no handler) rather than return
the body text; and when the fields are missing from a well-formed body the
function returns the namespace-STRIPPED text, not the raw decoded body. -/
theorem error_message_fallback_counterexample :
    get_error_message_from ⟨500, "Internal Server Error", "not xml <", .malformed⟩ =
      .error .parseError ∧
    get_error_message_from ⟨500, "Internal Server Error", "not xml <", .malformed⟩ ≠
      .ok "not xml <" ∧
    get_error_message_from
      ⟨404, "Not Found", "<ResponseStatus xmlns=\"urn:x\"></ResponseStatus>",
        .doc none none⟩ = .ok "<ResponseStatus></ResponseStatus>" ∧
    ("<ResponseStatus></ResponseStatus>" : String) ≠
      "<ResponseStatus xmlns=\"urn:x\"></ResponseStatus>" :=
  ⟨rfl, fun h => Except.noConfusion h, rfl, by decide⟩

/-- C8 as amended: with both `statusString` and `subStatusCode` present in
the well-formed, namespace-stripped body the message is
`"Error {status} {reason}: {statusString} - {subStatusCode}"`; with a
well-formed body missing either field the namespace-stripped body text is
returned; a body that is not well-formed XML raises a `ParseError` that
propagates to the caller. -/
theorem error_message_amended (a : HttpAnswer) :
    (∀ status substatus,
      a.parsed = .doc (some status) (some substatus) →
      get_error_message_from a =
        .ok ("Error " ++ toString a.status_code ++ " " ++ a.reason ++ ": " ++
          status ++ " - " ++ substatus)) ∧
    (∀ st sub, a.parsed = .doc st sub → (st = none ∨ sub = none) →
      get_error_message_from a = .ok (clear_xml_from_namespaces a.text)) ∧
    (a.parsed = .malformed → get_error_message_from a = .error .parseError) := by
  refine ⟨fun status substatus hp => ?_, fun st sub hp hmiss => ?_,
    fun hp => ?_⟩
  · unfold get_error_message_from
    rw [hp]
  · unfold get_error_message_from
    rw [hp]
    rcases hmiss with h | h
    · subst h
      cases sub <;> rfl
    · subst h
      cases st <;> rfl
  · unfold get_error_message_from
    rw [hp]

/-- Witness for the amended C8 at concrete responses. -/
theorem error_message_amended_witness :
    get_error_message_from
      ⟨500, "Internal Server Error", "<s></s>",
        .doc (some "Invalid Operation") (some "invalidOperation")⟩ =
      .ok "Error 500 Internal Server Error: Invalid Operation - invalidOperation" ∧
    get_error_message_from ⟨404, "Not Found", "<s></s>", .doc none none⟩ =
      .ok (clear_xml_from_namespaces "<s></s>") ∧
    get_error_message_from ⟨400, "Bad Request", "junk", .malformed⟩ =
      .error .parseError :=
  ⟨(error_message_amended ⟨500, "Internal Server Error", "<s></s>",
      .doc (some "Invalid Operation") (some "invalidOperation")⟩).1
      "Invalid Operation" "invalidOperation" rfl,
    (error_message_amended ⟨404, "Not Found", "<s></s>", .doc none none⟩).2.1
      none none rfl (Or.inl rfl),
    (error_message_amended ⟨400, "Bad Request", "junk", .malformed⟩).2.2 rfl⟩

/-! ## Claim theorems: authentication negotiation -/

/-- C5: `get_auth_type` probes the time endpoint with Basic credentials
first and returns `BASIC` on success; otherwise it probes with Digest and
returns `DIGEST` on success; with neither accepted it returns
`UNAUTHORISED`.  For every server that answers both probes with HTTP
responses, the result matches this decision order, the first probe issued
is always Basic, and a server accepting Basic is never probed with
Digest. -/
theorem auth_selection_probes_basic_first (b d : Bool) :
    (get_auth_type (respondingServer b d)).1 =
      .ok (if b then .BASIC else if d then .DIGEST else .UNAUTHORISED) ∧
    (get_auth_type (respondingServer b d)).2.head? = some .basic ∧
    (get_auth_type (respondingServer true d)).2 = [.basic] := by
  cases b <;> cases d <;> exact ⟨rfl, rfl, rfl⟩

/-- Witness for C5 at a server that accepts only Digest. -/
theorem auth_selection_probes_basic_first_witness :
    (get_auth_type (respondingServer false true)).1 =
      .ok (if false then .BASIC else if true then .DIGEST else .UNAUTHORISED) ∧
    (get_auth_type (respondingServer false true)).2.head? = some .basic ∧
    (get_auth_type (respondingServer true true)).2 = [.basic] :=
  auth_selection_probes_basic_first false true

/-- C6 counterexample: a network-level error during the Basic probe is not
treated like wrong credentials.  Against a server whose probes raise (the
`requests` timeout / connection-refused exceptions), `get_auth_type`
surfaces the raised error after the very first probe instead of falling
through to Digest and returning `UNAUTHORISED`. -/
theorem auth_net_error_surfaces_counterexample :
    (get_auth_type unreachableServer).1 = .error .netError ∧
    (get_auth_type unreachableServer).1 ≠ .ok .UNAUTHORISED ∧
    (get_auth_type unreachableServer).2 = [.basic] :=
  ⟨rfl, fun h => Except.noConfusion h, rfl⟩

/-- C6 as amended: only a *response* that is not `ok` (e.g. wrong
credentials) makes the negotiation fall through to the next scheme and
finally to `UNAUTHORISED`; a network-level exception in either probe
propagates out of `get_auth_type` as a raised error. -/
theorem auth_net_error_propagates (server : AuthScheme → ProbeOutcome) :
    (server .basic = .netRaise →
      get_auth_type server = (.error .netError, [.basic])) ∧
    (server .basic = .resp false → server .digest = .netRaise →
      get_auth_type server = (.error .netError, [.basic, .digest])) ∧
    (server .basic = .resp false → server .digest = .resp false →
      get_auth_type server = (.ok .UNAUTHORISED, [.basic, .digest])) := by
  refine ⟨fun h => ?_, fun h h2 => ?_, fun h h2 => ?_⟩
  · simp [get_auth_type, h]
  · simp [get_auth_type, h, h2]
  · simp [get_auth_type, h, h2]

/-- A server that accepts neither scheme: the Basic probe gets a non-ok
response and the Digest probe raises a network exception. -/
def digestRaiseServer : AuthScheme → ProbeOutcome
  | .basic => .resp false
  | .digest => .netRaise

/-- Witness for the amended C6 at three concrete servers. -/
theorem auth_net_error_propagates_witness :
    get_auth_type unreachableServer = (.error .netError, [.basic]) ∧
    get_auth_type digestRaiseServer = (.error .netError, [.basic, .digest]) ∧
    get_auth_type (respondingServer false false) =
      (.ok .UNAUTHORISED, [.basic, .digest]) :=
  ⟨(auth_net_error_propagates unreachableServer).1 rfl,
    (auth_net_error_propagates digestRaiseServer).2.1 rfl rfl,
    (auth_net_error_propagates (respondingServer false false)).2.2 rfl rfl⟩

/-! ## Claim theorems: paginated search -/

theorem get_all_tracks_loop_full_step (page : List Track) (rest : List PageAnswer)
    (start : Int) (acc : List Track) (reqs : List Int) (l : Track)
    (hlen : ¬page.length < MAX_VIDEOS_NUMBER_IN_ONE_REQUEST)
    (hl : (acc ++ page).getLast? = some l) :
    get_all_tracks_loop (.ok page :: rest) start acc reqs =
      get_all_tracks_loop rest l.endTime (acc ++ page) (reqs ++ [start]) := by
  conv_lhs => rw [get_all_tracks_loop]
  simp only [hlen, if_false, hl]

theorem get_all_tracks_loop_small_step (page : List Track) (rest : List PageAnswer)
    (start : Int) (acc : List Track) (reqs : List Int)
    (hlen : page.length < MAX_VIDEOS_NUMBER_IN_ONE_REQUEST) :
    get_all_tracks_loop (.ok page :: rest) start acc reqs =
      ⟨acc ++ page, reqs ++ [start]⟩ := by
  conv_lhs => rw [get_all_tracks_loop]
  simp only [hlen, if_true]

theorem exists_getLast?_of_length_pos {page : List Track}
    (h : 0 < page.length) : ∃ l, page.getLast? = some l := by
  cases hl : page.getLast? with
  | some l => exact ⟨l, rfl⟩
  | none =>
    rw [List.getLast?_eq_none_iff] at hl
    subst hl
    simp at h

/-- C3: pagination.  A page of exactly `MAX_VIDEOS_NUMBER_IN_ONE_REQUEST`
(= 50) tracks triggers one more request whose window start is the end
timestamp of the last track returned so far; a smaller page stops the loop.
Pages of sizes [50, 50, 3] yield exactly three requests (at the initial
start, then at the last ends of pages one and two) and 103 accumulated
tracks; a first page smaller than 50 yields exactly one request. -/
theorem pagination_advances_on_full_pages
    (p1 p2 p3 q : List Track) (s t : Int)
    (h1 : p1.length = 50) (h2 : p2.length = 50) (h3 : p3.length = 3)
    (hq : q.length < 50) :
    MAX_VIDEOS_NUMBER_IN_ONE_REQUEST = 50 ∧
    (∃ l1 l2, p1.getLast? = some l1 ∧ p2.getLast? = some l2 ∧
      get_all_tracks [.ok p1, .ok p2, .ok p3] s =
        ⟨p1 ++ p2 ++ p3, [s, l1.endTime, l2.endTime]⟩ ∧
      (p1 ++ p2 ++ p3).length = 103) ∧
    get_all_tracks [.ok q] t = ⟨q, [t]⟩ := by
  have h50 : MAX_VIDEOS_NUMBER_IN_ONE_REQUEST = 50 := rfl
  obtain ⟨l1, hl1⟩ := exists_getLast?_of_length_pos (show 0 < p1.length by omega)
  obtain ⟨l2, hl2⟩ := exists_getLast?_of_length_pos (show 0 < p2.length by omega)
  have hp2ne : p2 ≠ [] := by
    intro hnil
    rw [hnil] at h2
    simp at h2
  refine ⟨h50, ⟨l1, l2, hl1, hl2, ?_, ?_⟩, ?_⟩
  · unfold get_all_tracks
    rw [get_all_tracks_loop_full_step _ _ _ _ _ l1
        (by rw [h50, h1]; exact Nat.lt_irrefl 50)
        (by rw [List.nil_append]; exact hl1)]
    rw [get_all_tracks_loop_full_step _ _ _ _ _ l2
        (by rw [h50, h2]; exact Nat.lt_irrefl 50)
        (by rw [List.getLast?_append_of_ne_nil _ hp2ne]; exact hl2)]
    rw [get_all_tracks_loop_small_step _ _ _ _ _
        (by rw [h50, h3]; exact Nat.lt_of_sub_eq_succ rfl)]
    simp [List.append_assoc]
  · simp [h1, h2, h3]
  · unfold get_all_tracks
    rw [get_all_tracks_loop_small_step _ _ _ _ _ (h50 ▸ hq)]
    simp

/-- Concrete search pages used to witness the pagination claim. -/
def samplePage (v : Int) (n : Nat) : List Track := List.replicate n ⟨v⟩

/-- Witness for C3 at concrete pages: two full pages of 50 tracks, a page
of 3 and a small first page of 2 tracks. -/
theorem pagination_advances_on_full_pages_witness :
    MAX_VIDEOS_NUMBER_IN_ONE_REQUEST = 50 ∧
    (∃ l1 l2, (samplePage 11 50).getLast? = some l1 ∧
      (samplePage 13 50).getLast? = some l2 ∧
      get_all_tracks
        [.ok (samplePage 11 50), .ok (samplePage 13 50),
         .ok (samplePage 17 3)] 1 =
        ⟨samplePage 11 50 ++ samplePage 13 50 ++ samplePage 17 3,
          [1, l1.endTime, l2.endTime]⟩ ∧
      (samplePage 11 50 ++ samplePage 13 50 ++ samplePage 17 3).length = 103) ∧
    get_all_tracks [.ok (samplePage 19 2)] 4 = ⟨samplePage 19 2, [4]⟩ :=
  pagination_advances_on_full_pages _ _ _ _ 1 4
    (by simp [samplePage]) (by simp [samplePage]) (by simp [samplePage])
    (by simp [samplePage])

theorem get_all_tracks_loop_fail_nil (fulls : List (List Track)) :
    ∀ (rest : List PageAnswer) (acc : List Track) (reqs : List Int)
      (start : Int), (∀ p ∈ fulls, p.length = 50) →
      (get_all_tracks_loop (fulls.map PageAnswer.ok ++ .fail :: rest)
        start acc reqs).tracks = [] := by
  induction fulls with
  | nil => intro rest acc reqs start _; rfl
  | cons p ps ih =>
    intro rest acc reqs start hfull
    have hp : p.length = 50 := hfull p (List.mem_cons_self p ps)
    have hpne : p ≠ [] := by
      intro hnil
      rw [hnil] at hp
      simp at hp
    obtain ⟨l, hl⟩ := exists_getLast?_of_length_pos (show 0 < p.length by omega)
    rw [List.map_cons, List.cons_append,
      get_all_tracks_loop_full_step _ _ _ _ _ l
        (by rw [hp]; exact Nat.lt_irrefl 50)
        (by rw [List.getLast?_append_of_ne_nil _ hpne]; exact hl)]
    exact ih rest (acc ++ p) (reqs ++ [start]) l.endTime
      (fun q hq => hfull q (List.mem_cons_of_mem p hq))

/-- C4: a non-success answer to any page request abandons the whole search:
whatever full pages were already accumulated, the result is the empty track
list. -/
theorem page_failure_discards_partial_results
    (fulls : List (List Track)) (rest : List PageAnswer) (s : Int)
    (hfull : ∀ p ∈ fulls, p.length = 50) :
    (get_all_tracks (fulls.map PageAnswer.ok ++ .fail :: rest) s).tracks = [] :=
  get_all_tracks_loop_fail_nil fulls rest [] [] s hfull

/-- Witness for C4: one full page of 50 tracks followed by a failing page. -/
theorem page_failure_discards_partial_results_witness :
    (get_all_tracks
      ([List.replicate 50 (⟨3⟩ : Track)].map PageAnswer.ok ++
        .fail :: []) 0).tracks = [] :=
  page_failure_discards_partial_results [List.replicate 50 ⟨3⟩] [] 0
    (by simp)

/-- Witness for C9 at a concrete environment and event. -/
theorem exif_failure_swallowed_witness :
    set_video_exif_metadata ⟨true, .calledProcessError⟩ = false ∧
    set_video_exif_metadata ⟨false, .success⟩ = false ∧
    download_file_with_retry (.response 200) ⟨true, .calledProcessError⟩ =
      (Except.ok true, [.stampExif]) :=
  ⟨(exif_failure_swallowed ⟨true, .calledProcessError⟩ (.response 200)).1
      (by decide),
    (exif_failure_swallowed ⟨false, .success⟩ (.response 200)).2.1 rfl,
    (exif_failure_swallowed ⟨true, .calledProcessError⟩ (.response 200)).2.2
      rfl⟩

end LaviewDl

